import Mathlib

/-!
Shallow embedding of two source files of this repository:
  * `src/unnamed/part_000` — the `NativeEditContext` input adapter
    (typing, IME composition, clipboard, focus handling);
  * `src/src/vs/workbench/parts/debug/electron-browser/debug.contribution.ts`
    — the debug-UI registration module.
Strings of document content are embedded as `List Char`; numeric offsets as
`Nat` (the source only ever uses non-negative offsets); fallible or optional
values as `Option`.  Side effects on external collaborators (the view
controller, the clipboard service, the DOM node) are embedded as explicit
effect values returned by the handler functions.
-/

/-- Model of `Position` from `vs/editor/common/core/position` (only the two
fields the adapter reads: `lineNumber` and `column`). -/
structure VPos where
  lineNumber : Nat
  column : Nat
deriving DecidableEq, Repr

/-- Modelled from the spec: the `Range` class from `vs/editor/common/core/range`
is not under src/.  The spec only requires a line/column range with a start and
an end position ("capturing the current cursor position as a zero-length
composition range", "extends the composition range's end to the current cursor
position"). -/
structure VRange where
  startPos : VPos
  endPos : VPos
deriving DecidableEq, Repr

/-- Modelled from the spec: `Range.fromPositions(start, end)` builds the range
from the two positions. -/
def VRange.fromPositions (s e : VPos) : VRange := ⟨s, e⟩

/-- Modelled from the spec: `range.setEndPosition(line, column)` "extends the
composition range's end to the current cursor position", i.e. returns the range
with its end replaced. -/
def VRange.setEndPosition (r : VRange) (p : VPos) : VRange := ⟨r.startPos, p⟩

/-- Lexicographic order on positions (`Position.isBeforeOrEqual`): `p` is at or
before `q` in the document. -/
def VPos.isBeforeOrEqual (p q : VPos) : Bool :=
  p.lineNumber < q.lineNumber ∨ (p.lineNumber = q.lineNumber ∧ p.column ≤ q.column)

/-- JavaScript `String.prototype.substring(a, b)`: swaps the endpoints when
`a > b` and clamps them to the string length (clamping is implicit in
`List.drop`/`List.take`). -/
def jsSubstring (s : List Char) (a b : Nat) : List Char :=
  let lo := min a b
  let hi := max a b
  (s.drop lo).take (hi - lo)

/-- JavaScript `String.prototype.substring(a)` with one argument: the suffix
from index `a` (clamped). -/
def jsSubstringFrom (s : List Char) (a : Nat) : List Char := s.drop a

/-- JavaScript `Number.MAX_SAFE_INTEGER`, used by the source as an
end-of-text sentinel when replacing the full mirrored content. -/
def MAX_SAFE_INTEGER : Nat := 2 ^ 53 - 1

/-- `EditContextState` from `nativeEditContextUtils` as used by the adapter:
the snapshot of the text mirrored into the edit context, with the selection
offsets inside that text and the line/column range the content was read from. -/
structure EditContextState where
  content : List Char
  selectionStartOffset : Nat
  selectionEndOffset : Nat
  rangeOfContent : VRange
deriving DecidableEq, Repr

/-- A `textupdate` event payload `{text, updateRangeStart, updateRangeEnd}`. -/
structure TextUpdateEvent where
  text : List Char
  updateRangeStart : Nat
  updateRangeEnd : Nat
deriving DecidableEq, Repr

/-- `ITypeData` from `screenReaderUtils`: a normalized edit intent. -/
structure ITypeData where
  text : List Char
  replacePrevCharCnt : Nat
  replaceNextCharCnt : Nat
  positionDelta : Int
deriving DecidableEq, Repr

/-- `NativeEditContext._emitTypeEvent` (src/unnamed/part_000, lines 175–207),
as a pure function from the captured snapshot (`this._currentEditContextState`)
and the event to the `ITypeData` handed to `this._onType`; `none` is the early
return taken when no snapshot exists. -/
def _emitTypeEvent (state : Option EditContextState) (e : TextUpdateEvent) :
    Option ITypeData :=
  match state with
  | none => none
  | some st =>
    let replaceNextCharCnt :=
      if e.updateRangeEnd > st.selectionEndOffset then
        e.updateRangeEnd - st.selectionEndOffset
      else 0
    let replacePrevCharCnt :=
      if e.updateRangeStart < st.selectionStartOffset then
        st.selectionStartOffset - e.updateRangeStart
      else 0
    let text1 :=
      if st.selectionStartOffset < e.updateRangeStart then
        jsSubstring st.content st.selectionStartOffset e.updateRangeStart
      else []
    let text2 :=
      if st.selectionEndOffset > e.updateRangeEnd then
        jsSubstring st.content e.updateRangeEnd st.selectionEndOffset
      else []
    some { text := text1 ++ e.text ++ text2
           replacePrevCharCnt := replacePrevCharCnt
           replaceNextCharCnt := replaceNextCharCnt
           positionDelta := 0 }

/-- `ClipboardStoredMetadata` from `clipboardUtils` as constructed by the
adapter (line 447): schema version, empty-selection origin flag, optional
multi-cursor text segments and optional language mode. -/
structure ClipboardStoredMetadata where
  version : Nat
  isFromEmptySelection : Bool
  multicursorText : Option (List (List Char))
  mode : Option (List Char)
deriving DecidableEq, Repr

/-- The observable side effects a keydown / copy handler of the adapter can
issue on its external collaborators (the event, the edit context surface, the
clipboard metadata registry, the clipboard service and the view controller). -/
inductive Effect where
  | stopPropagation
  | preventDefault
  | surfaceUpdateText (rangeStart rangeEnd : Nat) (text : List Char)
  | metadataLookup (key : List Char)
  | metadataSet (key : List Char) (md : ClipboardStoredMetadata)
  | clipboardWriteText (text : List Char)
  | vcPaste (text : List Char) (pasteOnNewLine : Bool)
      (multicursorText : Option (List (List Char))) (mode : Option (List Char))
  | vcCut
  | vcCompositionType (text : List Char) (replacePrevCharCnt replaceNextCharCnt : Nat)
      (positionDelta : Int)
  | vcType (text : List Char)
  | emitKeyDown
deriving DecidableEq, Repr

/-- `NativeEditContext._onType` (lines 298–304): a nonzero replace count or
position delta dispatches `viewController.compositionType`, otherwise
`viewController.type`.  The JS truthiness test `if (a || b || c)` on numbers is
"some of them nonzero". -/
def _onType (typeInput : ITypeData) : Effect :=
  if typeInput.replacePrevCharCnt ≠ 0 ∨ typeInput.replaceNextCharCnt ≠ 0 ∨
      typeInput.positionDelta ≠ 0 then
    Effect.vcCompositionType typeInput.text typeInput.replacePrevCharCnt
      typeInput.replaceNextCharCnt typeInput.positionDelta
  else
    Effect.vcType typeInput.text

/-- The mutable part of the host `EditContext` surface the adapter reads in
`_emitAddNewLineEvent`: mirrored text and selection offsets. -/
structure EditContextSurface where
  text : List Char
  selectionStart : Nat
  selectionEnd : Nat
deriving DecidableEq, Repr

/-- Modelled from the spec: the host surface's `updateText(rangeStart,
rangeEnd, text)` (external interface §6) replaces the given character range of
the mirrored text, with a largest-integer sentinel standing for end of text;
indices clamp to the text length. -/
def jsUpdateText (s : List Char) (rangeStart rangeEnd : Nat) (newText : List Char) :
    List Char :=
  let lo := min (min rangeStart rangeEnd) s.length
  let hi := min (max rangeStart rangeEnd) s.length
  s.take lo ++ newText ++ s.drop hi

/-- `NativeEditContext._emitAddNewLineEvent` (lines 162–173): splice a line
feed over the surface selection, push the whole new text back with the
end-of-text sentinel, then dispatch `{text:"\n", 0, 0, 0}` through `_onType`. -/
def _emitAddNewLineEvent (s : EditContextSurface) : List Effect :=
  let textBeforeSelection := jsSubstring s.text 0 s.selectionStart
  let textAfterSelection := jsSubstringFrom s.text s.selectionEnd
  let textAfterAddingNewLine := textBeforeSelection ++ ['\n'] ++ textAfterSelection
  [Effect.surfaceUpdateText 0 MAX_SAFE_INTEGER textAfterAddingNewLine,
   _onType { text := ['\n'], replacePrevCharCnt := 0, replaceNextCharCnt := 0,
             positionDelta := 0 }]

/-- `DataToCopy` as produced by `getDataToCopy` (`clipboardUtils`, not under
src/): the adapter only reads the four fields used on lines 447–459. -/
structure DataToCopy where
  text : List Char
  isFromEmptySelection : Bool
  multicursorText : Option (List (List Char))
  mode : Option (List Char)
deriving DecidableEq, Repr

/-- JavaScript `text.replace(/\r\n/g, '\n')`: replace every (left-to-right,
non-overlapping) CRLF pair by a single LF. -/
def replaceCrlfWithLf : List Char → List Char
  | [] => []
  | '\r' :: '\n' :: rest => '\n' :: replaceCrlfWithLf rest
  | c :: rest => c :: replaceCrlfWithLf rest

/-- What `NativeEditContext._ensureClipboardGetsEditorSelection`
(lines 441–460) hands to its two collaborators: the key and metadata stored in
`InMemoryClipboardMetadataManager` and the text written to the clipboard
service.  Only the stored key is CRLF-normalized, and only on Firefox. -/
def _ensureClipboardGetsEditorSelection (isFirefox : Bool) (dataToCopy : DataToCopy) :
    List Effect :=
  let storedMetadata : ClipboardStoredMetadata :=
    { version := 1
      isFromEmptySelection := dataToCopy.isFromEmptySelection
      multicursorText := dataToCopy.multicursorText
      mode := dataToCopy.mode }
  [Effect.metadataSet
      (if isFirefox then replaceCrlfWithLf dataToCopy.text else dataToCopy.text)
      storedMetadata,
   Effect.clipboardWriteText dataToCopy.text]

/-- Modelled from the spec: `InMemoryClipboardMetadataManager` (`clipboardUtils`,
not under src/) is "a process-wide in-memory registry keyed by exact text
content"; `get` returns the metadata stored for exactly that text, if any. -/
def registryGet (registry : List (List Char × ClipboardStoredMetadata))
    (key : List Char) : Option ClipboardStoredMetadata :=
  (registry.find? (fun p => p.1 = key)).map Prod.snd

/-- The key codes the two source files mention (`vs/base/common/keyCodes`). -/
inductive KeyCodeE where
  | Enter | KeyV | KeyX | KEY_IN_COMPOSITION
  | F5 | F9 | F10 | F11 | KEY_D | KEY_I
  | Other
deriving DecidableEq, Repr

/-- The two fields of `StandardKeyboardEvent` the keydown listener reads. -/
structure StandardKeyboardEventE where
  keyCode : KeyCodeE
  metaKey : Bool
deriving DecidableEq, Repr

/-- The external inputs the keydown listener (lines 78–116) consults: the edit
context surface, the text the clipboard service resolves, the clipboard
metadata registry, the `emptySelectionClipboard` editor option, and the data
`getDataToCopy` would produce for the current selection (for the cut path),
plus the platform flag. -/
structure KeydownEnv where
  surface : EditContextSurface
  clipboardText : List Char
  registry : List (List Char × ClipboardStoredMetadata)
  emptySelectionClipboard : Bool
  dataToCopy : DataToCopy
  isFirefox : Bool
deriving DecidableEq, Repr

/-- The paste branch of the keydown listener (lines 95–110): prevent the
default, read the clipboard, and when the text is non-empty look up its
metadata and forward a paste to the view controller; an empty clipboard read
forwards nothing and performs no metadata lookup. -/
def pasteKeydownEffects (env : KeydownEnv) : List Effect :=
  Effect.preventDefault ::
    (if env.clipboardText ≠ [] then
      Effect.metadataLookup env.clipboardText ::
        (match registryGet env.registry env.clipboardText with
         | some metadata =>
           [Effect.vcPaste env.clipboardText
             (env.emptySelectionClipboard && metadata.isFromEmptySelection)
             metadata.multicursorText metadata.mode]
         | none => [Effect.vcPaste env.clipboardText false none none])
    else [])

/-- The keydown listener registered in the constructor (lines 78–116), as the
ordered list of effects it issues for one event: stop propagation for the
in-composition key, synthesize the newline for Enter, intercept modifier+V as
paste and modifier+X as cut, and finally forward the key down to the view
controller. -/
def keydownHandler (env : KeydownEnv) (e : StandardKeyboardEventE) : List Effect :=
  (if e.keyCode = KeyCodeE.KEY_IN_COMPOSITION then [Effect.stopPropagation] else [])
  ++ (if e.keyCode = KeyCodeE.Enter then _emitAddNewLineEvent env.surface else [])
  ++ (if e.metaKey ∧ e.keyCode = KeyCodeE.KeyV then pasteKeydownEffects env else [])
  ++ (if e.metaKey ∧ e.keyCode = KeyCodeE.KeyX then
        _ensureClipboardGetsEditorSelection env.isFirefox env.dataToCopy
          ++ [Effect.vcCut]
      else [])
  ++ [Effect.emitKeyDown]

/-- A text format span reported by a `textformatupdate` event
(`getTextFormats()` entry): offsets within the mirrored content plus underline
style and thickness labels. -/
structure TextFormat where
  rangeStart : Nat
  rangeEnd : Nat
  underlineStyle : List Char
  underlineThickness : List Char
deriving DecidableEq, Repr

/-- An `IModelDeltaDecoration` as built by `_handleTextFormatUpdate`: the
resolved position range and the composed inline class name. -/
structure ModelDeltaDecoration where
  range : VRange
  inlineClassName : List Char
deriving DecidableEq, Repr

/-- The two text-model queries `_handleTextFormatUpdate` uses
(`viewModel.model`, an external collaborator): absolute offset of a position
and position of an absolute offset. -/
structure TextModelE where
  getOffsetAt : VPos → Nat
  getPositionAt : Nat → VPos

/-- The adapter-owned mutable fields the event listeners touch:
`_currentEditContextState`, `_compositionRange` and `_decorations`. -/
structure AdapterState where
  currentEditContextState : Option EditContextState
  compositionRange : Option VRange
  decorations : List ModelDeltaDecoration
deriving DecidableEq, Repr

/-- JavaScript `String.prototype.toLowerCase` restricted to the ASCII class
names the handler builds. -/
def jsToLowerCase (l : List Char) : List Char := l.map Char.toLower

/-- `NativeEditContext._handleTextFormatUpdate` (lines 328–355): early return
without a snapshot; otherwise map each reported format to a decoration whose
range is resolved by offsetting from the mirrored range's start and whose
inline class name joins `ime`, `underline-style-<style>` and
`underline-thickness-<thickness>` (lower-cased), then diff-replace the
previously applied decoration set. -/
def _handleTextFormatUpdate (st : AdapterState) (model : TextModelE)
    (formats : List TextFormat) : AdapterState :=
  match st.currentEditContextState with
  | none => st
  | some ecs =>
    let rangeOfEditContextText := ecs.rangeOfContent
    let decorations := formats.map (fun f =>
      let offsetOfEditContextText := model.getOffsetAt rangeOfEditContextText.startPos
      let startPositionOfDecoration := model.getPositionAt (offsetOfEditContextText + f.rangeStart)
      let endPositionOfDecoration := model.getPositionAt (offsetOfEditContextText + f.rangeEnd)
      let decorationRange := VRange.fromPositions startPositionOfDecoration endPositionOfDecoration
      { range := decorationRange
        inlineClassName :=
          "ime underline-style-".toList ++ jsToLowerCase f.underlineStyle ++
            " underline-thickness-".toList ++ jsToLowerCase f.underlineThickness })
    { st with decorations := decorations }

/-- The `textupdate` listener (lines 120–127): while a composition range
exists, move its end to the current primary cursor position, then run
`_emitTypeEvent`; the second component is the effect dispatched through
`_onType`, when any. -/
def textUpdateListener (st : AdapterState) (cursorPosition : VPos)
    (e : TextUpdateEvent) : AdapterState × Option Effect :=
  let st1 :=
    match st.compositionRange with
    | some r =>
      let newRange := r.setEndPosition ⟨cursorPosition.lineNumber, cursorPosition.column⟩
      { st with compositionRange := some newRange }
    | none => st
  (st1, (_emitTypeEvent st1.currentEditContextState e).map _onType)

/-- The composition-related events the edit context delivers, each carrying the
primary cursor position the listener would read from the view model at that
moment. -/
inductive CompositionEvent where
  | compositionstart (cursor : VPos)
  | textupdate (cursor : VPos) (e : TextUpdateEvent)
  | compositionend
deriving DecidableEq, Repr

/-- The effect of one composition-related listener (lines 120–144) on
`_compositionRange`: `compositionstart` sets a zero-length range at the cursor,
`textupdate` moves the end of an existing range to the cursor, and
`compositionend` clears the range. -/
def compositionStep (range : Option VRange) : CompositionEvent → Option VRange
  | CompositionEvent.compositionstart cursor => some (VRange.fromPositions cursor cursor)
  | CompositionEvent.textupdate cursor _ =>
    match range with
    | some r => some (r.setEndPosition cursor)
    | none => none
  | CompositionEvent.compositionend => none

/-- Folding the composition listeners over a sequence of delivered events. -/
def runComposition (range : Option VRange) (events : List CompositionEvent) :
    Option VRange :=
  events.foldl compositionStep range

/-- The `textupdate` events of a run, from (cursor, payload) pairs. -/
def textUpdatesOf (us : List (VPos × TextUpdateEvent)) : List CompositionEvent :=
  us.map (fun p => CompositionEvent.textupdate p.1 p.2)

/-- The cursor position current at the last of the updates, or `c` when there
is none. -/
def lastCursor (c : VPos) (us : List (VPos × TextUpdateEvent)) : VPos :=
  us.foldl (fun _ p => p.1) c

/-- The possible notifications `_setHasFocus` issues: the DOM node's native
`focus()` and `viewModel.setHasFocus(b)`. -/
inductive FocusEffect where
  | domNodeFocus
  | setViewModelHasFocus (b : Bool)
deriving DecidableEq, Repr

/-- `NativeEditContext._setHasFocus` (lines 282–296) as a function of the
stored `_hasFocus` flag: returns the new flag and the notifications issued.
An unchanged value short-circuits; gaining focus calls the DOM node's native
focus method and notifies the view model; losing focus only notifies. -/
def _setHasFocus (hasFocus newHasFocus : Bool) : Bool × List FocusEffect :=
  if hasFocus = newHasFocus then (hasFocus, [])
  else if newHasFocus then
    (newHasFocus, [FocusEffect.domNodeFocus, FocusEffect.setViewModelHasFocus true])
  else
    (newHasFocus, [FocusEffect.setViewModelHasFocus false])

/-- A default keybinding as combined from `KeyMod`/`KeyCode` bit masks in the
contribution file: which modifiers are or-ed onto the primary key code. -/
structure Keybinding where
  ctrlCmd : Bool
  shift : Bool
  key : KeyCodeE
deriving DecidableEq, Repr

/-- A `KbExpr` enablement expression as used by the contribution file:
`KbExpr.has(key)` or `KbExpr.not(key)`. -/
inductive KbExprE where
  | hasKey (key : String)
  | negKey (key : String)
deriving DecidableEq, Repr

/-- Modelled from the spec: `debug.CONTEXT_IN_DEBUG_MODE` (the debug common
module is not under src/) is "a shared boolean debug-mode context flag"; its
identity, not its literal name, is what the registrations share. -/
def CONTEXT_IN_DEBUG_MODE : String := "inDebugMode"

/-- Modelled from the spec: `debug.VIEWLET_ID` identifies the Debug viewlet
(side panel); the debug common module is not under src/. -/
def VIEWLET_ID : String := "workbench.view.debug"

/-- Modelled from the spec: `debug.REPL_ID` identifies the Debug Console
(repl) panel; the debug common module is not under src/. -/
def REPL_ID : String := "workbench.panel.repl"

/-- The action classes `debug.contribution.ts` registers as workbench
actions. -/
inductive WorkbenchActionClass where
  | OpenDebugViewletAction
  | StartDebugAction
  | StepOverDebugAction
  | StepIntoDebugAction
  | StepOutDebugAction
  | RestartDebugAction
  | StopDebugAction
  | ContinueAction
  | PauseAction
  | ConfigureAction
  | ToggleReplAction
deriving DecidableEq, Repr

/-- One `registry.registerWorkbenchAction(new SyncActionDescriptor(...),
category)` call: the action class, its default keybinding (if any), its
keybinding/enablement context expression (if any), its keybinding weight
override (if any) and the category string. -/
structure WorkbenchActionRegistration where
  action : WorkbenchActionClass
  keybinding : Option Keybinding
  kbExpr : Option KbExprE
  weight : Option Nat
  category : String
deriving DecidableEq, Repr

/-- The `nls.localize(key, default)` results used as categories; the embedding
uses the default (English) strings. -/
def debugCategory : String := "Debug"

/-- The eleven `registerWorkbenchAction` calls of `debug.contribution.ts`
(lines 85 and 91–101), in source order. -/
def workbenchActionRegistrations : List WorkbenchActionRegistration :=
  [{ action := WorkbenchActionClass.OpenDebugViewletAction
     keybinding := some ⟨true, true, KeyCodeE.KEY_D⟩
     kbExpr := none, weight := none, category := "View" },
   { action := WorkbenchActionClass.StartDebugAction
     keybinding := some ⟨false, false, KeyCodeE.F5⟩
     kbExpr := some (KbExprE.negKey CONTEXT_IN_DEBUG_MODE)
     weight := none, category := debugCategory },
   { action := WorkbenchActionClass.StepOverDebugAction
     keybinding := some ⟨false, false, KeyCodeE.F10⟩
     kbExpr := some (KbExprE.hasKey CONTEXT_IN_DEBUG_MODE)
     weight := none, category := debugCategory },
   { action := WorkbenchActionClass.StepIntoDebugAction
     keybinding := some ⟨false, false, KeyCodeE.F11⟩
     kbExpr := some (KbExprE.hasKey CONTEXT_IN_DEBUG_MODE)
     weight := some 1, category := debugCategory },
   { action := WorkbenchActionClass.StepOutDebugAction
     keybinding := some ⟨false, true, KeyCodeE.F11⟩
     kbExpr := some (KbExprE.hasKey CONTEXT_IN_DEBUG_MODE)
     weight := none, category := debugCategory },
   { action := WorkbenchActionClass.RestartDebugAction
     keybinding := none, kbExpr := none, weight := none, category := debugCategory },
   { action := WorkbenchActionClass.StopDebugAction
     keybinding := some ⟨false, true, KeyCodeE.F5⟩
     kbExpr := some (KbExprE.hasKey CONTEXT_IN_DEBUG_MODE)
     weight := none, category := debugCategory },
   { action := WorkbenchActionClass.ContinueAction
     keybinding := some ⟨false, false, KeyCodeE.F5⟩
     kbExpr := some (KbExprE.hasKey CONTEXT_IN_DEBUG_MODE)
     weight := none, category := debugCategory },
   { action := WorkbenchActionClass.PauseAction
     keybinding := none, kbExpr := none, weight := none, category := debugCategory },
   { action := WorkbenchActionClass.ConfigureAction
     keybinding := none, kbExpr := none, weight := none, category := debugCategory },
   { action := WorkbenchActionClass.ToggleReplAction
     keybinding := some ⟨true, true, KeyCodeE.KEY_I⟩
     kbExpr := none, weight := none, category := debugCategory }]

/-- The registration recorded for an action class, when present. -/
def regOf (a : WorkbenchActionClass) : Option WorkbenchActionRegistration :=
  workbenchActionRegistrations.find? (fun r => r.action = a)

/-- The editor action classes `debug.contribution.ts` registers (lines
51–57). -/
inductive EditorActionClass where
  | ToggleBreakpointAction
  | SelectionToReplAction
  | SelectionToWatchExpressionsAction
  | RunToCursorAction
deriving DecidableEq, Repr

/-- The `ContextKey` values the contribution file uses for editor actions. -/
inductive ContextKeyE where
  | EditorTextFocus
deriving DecidableEq, Repr

/-- The keybinding options of an `EditorActionDescriptor`: the context and the
primary keybinding. -/
structure EditorActionKb where
  context : ContextKeyE
  primary : Keybinding
deriving DecidableEq, Repr

/-- One `CommonEditorRegistry.registerEditorAction` call. -/
structure EditorActionRegistration where
  action : EditorActionClass
  label : String
  kbOpts : Option EditorActionKb
deriving DecidableEq, Repr

/-- The four `registerEditorAction` calls (lines 51–57), in source order. -/
def editorActionRegistrations : List EditorActionRegistration :=
  [{ action := EditorActionClass.ToggleBreakpointAction
     label := "Debug: Toggle Breakpoint"
     kbOpts := some ⟨ContextKeyE.EditorTextFocus, ⟨false, false, KeyCodeE.F9⟩⟩ },
   { action := EditorActionClass.SelectionToReplAction
     label := "Debug: Evaluate", kbOpts := none },
   { action := EditorActionClass.SelectionToWatchExpressionsAction
     label := "Debug: Add to Watch", kbOpts := none },
   { action := EditorActionClass.RunToCursorAction
     label := "Debug: Run to Cursor", kbOpts := none }]

/-- A `PanelDescriptor` as registered with the panel registry (lines 74–80). -/
structure PanelDescriptorE where
  moduleId : String
  ctorName : String
  id : String
  name : String
  cssClass : String
deriving DecidableEq, Repr

/-- The panel registry surface the contribution file touches: the registered
panels and the default panel id. -/
structure PanelRegistryState where
  panels : List PanelDescriptorE
  defaultPanelId : Option String
deriving DecidableEq, Repr

/-- `PanelRegistry.registerPanel`. -/
def registerPanel (st : PanelRegistryState) (d : PanelDescriptorE) : PanelRegistryState :=
  { st with panels := st.panels ++ [d] }

/-- `PanelRegistry.setDefaultPanelId`. -/
def setDefaultPanelId (st : PanelRegistryState) (id : String) : PanelRegistryState :=
  { st with defaultPanelId := some id }

/-- The panel registry after the contribution file's two calls (lines 74–81):
register the repl panel descriptor, then make it the default panel. -/
def panelRegistryAfterLoad : PanelRegistryState :=
  setDefaultPanelId
    (registerPanel ⟨[], none⟩
      ⟨"vs/workbench/parts/debug/browser/repl", "Repl", REPL_ID, "DEBUG CONSOLE", "repl"⟩)
    REPL_ID

/-- C1: the main formula of `_emitTypeEvent` — for every snapshot and event,
`replaceNextCharCnt = max(0, updateRangeEnd − selectionEndOffset)`,
`replacePrevCharCnt = max(0, selectionStartOffset − updateRangeStart)`,
`positionDelta = 0`, and the derived text is the snapshot content strictly
between `selectionStartOffset` and `updateRangeStart`, then the event text,
then the snapshot content strictly between `updateRangeEnd` and
`selectionEndOffset`.  For an event fully inside the previous selection both
replace counts are 0, and the derived text equals the event text when the
update range coincides exactly with the previous selection (the original
claim's "fully inside" version of that last part is refuted by
`emitTypeEvent_inside_cex`). -/
theorem emitTypeEvent_spec (st : EditContextState) (e : TextUpdateEvent) :
    _emitTypeEvent (some st) e =
      some { text :=
               (st.content.drop st.selectionStartOffset).take
                   (e.updateRangeStart - st.selectionStartOffset)
                 ++ e.text
                 ++ (st.content.drop e.updateRangeEnd).take
                   (st.selectionEndOffset - e.updateRangeEnd)
             replacePrevCharCnt := st.selectionStartOffset - e.updateRangeStart
             replaceNextCharCnt := e.updateRangeEnd - st.selectionEndOffset
             positionDelta := 0 }
    ∧ (st.selectionStartOffset ≤ e.updateRangeStart → e.updateRangeEnd ≤ st.selectionEndOffset →
        (_emitTypeEvent (some st) e).map ITypeData.replacePrevCharCnt = some 0 ∧
        (_emitTypeEvent (some st) e).map ITypeData.replaceNextCharCnt = some 0)
    ∧ (st.selectionStartOffset = e.updateRangeStart → st.selectionEndOffset = e.updateRangeEnd →
        (_emitTypeEvent (some st) e).map ITypeData.text = some e.text) := by
  have hslice : ∀ (a b : Nat) (l : List Char),
      (if a < b then jsSubstring l a b else []) = (l.drop a).take (b - a) := by
    intro a b l
    by_cases h : a < b
    · simp [jsSubstring, h, Nat.min_eq_left h.le, Nat.max_eq_right h.le]
    · simp [jsSubstring, h, Nat.sub_eq_zero_of_le (Nat.le_of_not_lt h)]
  have hcnt : ∀ a b : Nat, (if a < b then b - a else 0) = b - a := by
    intro a b; split <;> omega
  have hmain : _emitTypeEvent (some st) e =
      some { text :=
               (st.content.drop st.selectionStartOffset).take
                   (e.updateRangeStart - st.selectionStartOffset)
                 ++ e.text
                 ++ (st.content.drop e.updateRangeEnd).take
                   (st.selectionEndOffset - e.updateRangeEnd)
             replacePrevCharCnt := st.selectionStartOffset - e.updateRangeStart
             replaceNextCharCnt := e.updateRangeEnd - st.selectionEndOffset
             positionDelta := 0 } := by
    show some _ = _
    rw [hslice st.selectionStartOffset e.updateRangeStart st.content,
        hslice e.updateRangeEnd st.selectionEndOffset st.content,
        hcnt st.selectionEndOffset e.updateRangeEnd,
        hcnt e.updateRangeStart st.selectionStartOffset]
  refine ⟨hmain, fun h1 h2 => ?_, fun h1 h2 => ?_⟩
  · rw [hmain]
    simp [Option.map]
    omega
  · rw [hmain]
    simp [Option.map, h1, h2]

/-- C1 counterexample: an update event strictly inside the previous selection
(`selectionStartOffset < updateRangeStart` and
`updateRangeEnd < selectionEndOffset`) has both replace counts 0, but the
derived text is the spliced `"aXd"`, not the event's own text `"X"`. -/
theorem emitTypeEvent_inside_cex :
    (0 : Nat) ≤ 1 ∧ (3 : Nat) ≤ 4 ∧
    (_emitTypeEvent (some ⟨['a', 'b', 'c', 'd'], 0, 4, ⟨⟨1, 1⟩, ⟨1, 5⟩⟩⟩)
        ⟨['X'], 1, 3⟩).map ITypeData.replacePrevCharCnt = some 0 ∧
    (_emitTypeEvent (some ⟨['a', 'b', 'c', 'd'], 0, 4, ⟨⟨1, 1⟩, ⟨1, 5⟩⟩⟩)
        ⟨['X'], 1, 3⟩).map ITypeData.replaceNextCharCnt = some 0 ∧
    (_emitTypeEvent (some ⟨['a', 'b', 'c', 'd'], 0, 4, ⟨⟨1, 1⟩, ⟨1, 5⟩⟩⟩)
        ⟨['X'], 1, 3⟩).map ITypeData.text ≠ some ['X'] := by decide

/-- Witness for `emitTypeEvent_spec` at a concrete snapshot and event: for an
update range equal to the previous selection, both replace counts are 0 and
the derived text is the event text. -/
theorem emitTypeEvent_spec_witness :
    ((_emitTypeEvent (some ⟨['a', 'b'], 1, 1, ⟨⟨1, 1⟩, ⟨1, 3⟩⟩⟩)
        ⟨['Z'], 1, 1⟩).map ITypeData.replacePrevCharCnt = some 0 ∧
     (_emitTypeEvent (some ⟨['a', 'b'], 1, 1, ⟨⟨1, 1⟩, ⟨1, 3⟩⟩⟩)
        ⟨['Z'], 1, 1⟩).map ITypeData.replaceNextCharCnt = some 0) ∧
    (_emitTypeEvent (some ⟨['a', 'b'], 1, 1, ⟨⟨1, 1⟩, ⟨1, 3⟩⟩⟩)
        ⟨['Z'], 1, 1⟩).map ITypeData.text = some ['Z'] :=
  ⟨(emitTypeEvent_spec ⟨['a', 'b'], 1, 1, ⟨⟨1, 1⟩, ⟨1, 3⟩⟩⟩ ⟨['Z'], 1, 1⟩).2.1
      (by decide) (by decide),
   (emitTypeEvent_spec ⟨['a', 'b'], 1, 1, ⟨⟨1, 1⟩, ⟨1, 3⟩⟩⟩ ⟨['Z'], 1, 1⟩).2.2
      (by decide) (by decide)⟩

/-- Running the textupdate steps from an existing composition range keeps the
start and moves the end to the cursor of the last update. -/
theorem runComposition_textUpdates (us : List (VPos × TextUpdateEvent)) (r : VRange) :
    runComposition (some r) (textUpdatesOf us) =
      some ⟨r.startPos, lastCursor r.endPos us⟩ := by
  induction us generalizing r with
  | nil => rfl
  | cons u us ih =>
    have hstep : runComposition (some r) (textUpdatesOf (u :: us)) =
        runComposition (some (r.setEndPosition u.1)) (textUpdatesOf us) := rfl
    rw [hstep, ih]
    rfl

/-- C3 (amended): `compositionstart` sets a zero-length range at the current
cursor; throughout the following textupdate events the composition range stays
non-null, with its start pinned at the start cursor and its end equal to the
cursor position current at the most recent update (rather than monotonically
non-shrinking, which `composition_monotonic_cex` refutes); `compositionend`
leaves the range null. -/
theorem composition_lifecycle (c : VPos) (us : List (VPos × TextUpdateEvent)) :
    runComposition none [CompositionEvent.compositionstart c] = some ⟨c, c⟩
    ∧ (∀ k : Nat,
        runComposition none
            (CompositionEvent.compositionstart c :: textUpdatesOf (us.take k)) =
          some ⟨c, lastCursor c (us.take k)⟩)
    ∧ runComposition none
        (CompositionEvent.compositionstart c ::
          (textUpdatesOf us ++ [CompositionEvent.compositionend])) = none := by
  refine ⟨rfl, fun k => ?_, ?_⟩
  · have hstart : runComposition none
        (CompositionEvent.compositionstart c :: textUpdatesOf (us.take k)) =
        runComposition (some ⟨c, c⟩) (textUpdatesOf (us.take k)) := rfl
    rw [hstart, runComposition_textUpdates]
  · have hstart : runComposition none
        (CompositionEvent.compositionstart c ::
          (textUpdatesOf us ++ [CompositionEvent.compositionend])) =
        runComposition (some ⟨c, c⟩)
          (textUpdatesOf us ++ [CompositionEvent.compositionend]) := rfl
    rw [hstart]
    show List.foldl compositionStep (some ⟨c, c⟩)
        (textUpdatesOf us ++ [CompositionEvent.compositionend]) = none
    rw [List.foldl_append]
    rfl

/-- C3 counterexample: with the cursor moving backwards between two updates,
the composition range's end position shrinks (from column 5 back to column 2),
so the end is not monotonically non-shrinking across updates. -/
theorem composition_monotonic_cex :
    runComposition none
        [CompositionEvent.compositionstart ⟨1, 1⟩,
         CompositionEvent.textupdate ⟨1, 5⟩ ⟨[], 0, 0⟩] = some ⟨⟨1, 1⟩, ⟨1, 5⟩⟩
    ∧ runComposition none
        [CompositionEvent.compositionstart ⟨1, 1⟩,
         CompositionEvent.textupdate ⟨1, 5⟩ ⟨[], 0, 0⟩,
         CompositionEvent.textupdate ⟨1, 2⟩ ⟨[], 0, 0⟩] = some ⟨⟨1, 1⟩, ⟨1, 2⟩⟩
    ∧ VPos.isBeforeOrEqual ⟨1, 5⟩ ⟨1, 2⟩ = false := by decide

/-- C2 (amended): for every platform flag and copy payload, the text written
to the clipboard service is the unmodified copied text, while the key stored
in the clipboard metadata registry is the copied text with every CRLF replaced
by LF on Firefox and the unmodified copied text elsewhere (the original
claim's assertion that the written text is also normalized on Firefox is
refuted by `ensureClipboard_written_cex`). -/
theorem ensureClipboard_spec (isFirefox : Bool) (d : DataToCopy) :
    Effect.clipboardWriteText d.text ∈ _ensureClipboardGetsEditorSelection isFirefox d
    ∧ Effect.metadataSet (if isFirefox then replaceCrlfWithLf d.text else d.text)
        ⟨1, d.isFromEmptySelection, d.multicursorText, d.mode⟩ ∈
        _ensureClipboardGetsEditorSelection isFirefox d
    ∧ (∀ t md, Effect.metadataSet t md ∈ _ensureClipboardGetsEditorSelection isFirefox d →
        t = (if isFirefox then replaceCrlfWithLf d.text else d.text))
    ∧ (∀ t, Effect.clipboardWriteText t ∈ _ensureClipboardGetsEditorSelection isFirefox d →
        t = d.text) := by
  refine ⟨?_, ?_, ?_, ?_⟩
  · simp [_ensureClipboardGetsEditorSelection]
  · simp [_ensureClipboardGetsEditorSelection]
  · intro t md hmem
    simp [_ensureClipboardGetsEditorSelection] at hmem
    exact hmem.1
  · intro t hmem
    simp [_ensureClipboardGetsEditorSelection] at hmem
    exact hmem

/-- C2 counterexample: on the affected platform (Firefox), copying
`"A\r\nB"` stores the normalized key `"A\nB"` in the metadata registry but
writes the unmodified `"A\r\nB"` — containing CRLF — to the clipboard
service, contradicting the claim that both texts are normalized. -/
theorem ensureClipboard_written_cex :
    _ensureClipboardGetsEditorSelection true ⟨['A', '\r', '\n', 'B'], false, none, none⟩ =
      [Effect.metadataSet ['A', '\n', 'B'] ⟨1, false, none, none⟩,
       Effect.clipboardWriteText ['A', '\r', '\n', 'B']]
    ∧ ['A', '\r', '\n', 'B'] ≠ ['A', '\n', 'B'] := by decide

/-- Witness for `ensureClipboard_spec` at a concrete Firefox copy: the only
stored metadata key is the CRLF-normalized text. -/
theorem ensureClipboard_spec_witness :
    (['A', '\n', 'B'] : List Char) =
      (if true then replaceCrlfWithLf ['A', '\r', '\n', 'B'] else ['A', '\r', '\n', 'B']) :=
  (ensureClipboard_spec true ⟨['A', '\r', '\n', 'B'], false, none, none⟩).2.2.1
    ['A', '\n', 'B'] ⟨1, false, none, none⟩ (by decide)

/-- C4 (amended): all ten debug-session workbench actions (the nine plus the
console-panel toggle) are registered under the "Debug" category; the start
action's keybinding is gated on the negation of the shared debug-mode context
flag; step-over, step-into, step-out, stop and continue are gated on the flag;
restart, pause, open-launch-configuration and the console toggle are
registered with no enablement expression at all (the original claim that every
one of the ten is conditioned on the flag is refuted by
`workbenchActions_enablement_cex`). -/
theorem workbenchActions_debug_registrations :
    (∀ r ∈ workbenchActionRegistrations,
        r.action = WorkbenchActionClass.OpenDebugViewletAction ∨ r.category = debugCategory)
    ∧ regOf WorkbenchActionClass.StartDebugAction =
        some ⟨WorkbenchActionClass.StartDebugAction, some ⟨false, false, KeyCodeE.F5⟩,
          some (KbExprE.negKey CONTEXT_IN_DEBUG_MODE), none, debugCategory⟩
    ∧ regOf WorkbenchActionClass.StepOverDebugAction =
        some ⟨WorkbenchActionClass.StepOverDebugAction, some ⟨false, false, KeyCodeE.F10⟩,
          some (KbExprE.hasKey CONTEXT_IN_DEBUG_MODE), none, debugCategory⟩
    ∧ regOf WorkbenchActionClass.StepIntoDebugAction =
        some ⟨WorkbenchActionClass.StepIntoDebugAction, some ⟨false, false, KeyCodeE.F11⟩,
          some (KbExprE.hasKey CONTEXT_IN_DEBUG_MODE), some 1, debugCategory⟩
    ∧ regOf WorkbenchActionClass.StepOutDebugAction =
        some ⟨WorkbenchActionClass.StepOutDebugAction, some ⟨false, true, KeyCodeE.F11⟩,
          some (KbExprE.hasKey CONTEXT_IN_DEBUG_MODE), none, debugCategory⟩
    ∧ regOf WorkbenchActionClass.RestartDebugAction =
        some ⟨WorkbenchActionClass.RestartDebugAction, none, none, none, debugCategory⟩
    ∧ regOf WorkbenchActionClass.StopDebugAction =
        some ⟨WorkbenchActionClass.StopDebugAction, some ⟨false, true, KeyCodeE.F5⟩,
          some (KbExprE.hasKey CONTEXT_IN_DEBUG_MODE), none, debugCategory⟩
    ∧ regOf WorkbenchActionClass.ContinueAction =
        some ⟨WorkbenchActionClass.ContinueAction, some ⟨false, false, KeyCodeE.F5⟩,
          some (KbExprE.hasKey CONTEXT_IN_DEBUG_MODE), none, debugCategory⟩
    ∧ regOf WorkbenchActionClass.PauseAction =
        some ⟨WorkbenchActionClass.PauseAction, none, none, none, debugCategory⟩
    ∧ regOf WorkbenchActionClass.ConfigureAction =
        some ⟨WorkbenchActionClass.ConfigureAction, none, none, none, debugCategory⟩
    ∧ regOf WorkbenchActionClass.ToggleReplAction =
        some ⟨WorkbenchActionClass.ToggleReplAction, some ⟨true, true, KeyCodeE.KEY_I⟩,
          none, none, debugCategory⟩ := by decide

/-- C4 counterexample: the restart action is registered under the "Debug"
category with no enablement expression at all, so it is not the case that
every debug-category action registration is conditioned on the shared
debug-mode context flag. -/
theorem workbenchActions_enablement_cex :
    (⟨WorkbenchActionClass.RestartDebugAction, none, none, none, debugCategory⟩ :
        WorkbenchActionRegistration) ∈ workbenchActionRegistrations
    ∧ ¬ (∀ r ∈ workbenchActionRegistrations,
          r.action ≠ WorkbenchActionClass.OpenDebugViewletAction →
            (r.kbExpr = some (KbExprE.negKey CONTEXT_IN_DEBUG_MODE) ∨
             r.kbExpr = some (KbExprE.hasKey CONTEXT_IN_DEBUG_MODE))) := by decide

/-- C5: `_onType` issues exactly one composition-style typed replacement when
any of the two replace counts or the position delta is nonzero, and exactly
one plain text insertion otherwise. -/
theorem onType_dispatch (t : ITypeData) :
    (t.replacePrevCharCnt ≠ 0 ∨ t.replaceNextCharCnt ≠ 0 ∨ t.positionDelta ≠ 0 →
      _onType t = Effect.vcCompositionType t.text t.replacePrevCharCnt
        t.replaceNextCharCnt t.positionDelta)
    ∧ (t.replacePrevCharCnt = 0 ∧ t.replaceNextCharCnt = 0 ∧ t.positionDelta = 0 →
      _onType t = Effect.vcType t.text) := by
  refine ⟨fun h => ?_, fun h => ?_⟩
  · simp [_onType, h]
  · simp [_onType, h.1, h.2.1, h.2.2]

/-- Witness for `onType_dispatch`: a nonzero replace count dispatches a
composition-style replacement, an all-zero intent dispatches a plain
insertion. -/
theorem onType_dispatch_witness :
    _onType ⟨['a'], 1, 0, 0⟩ = Effect.vcCompositionType ['a'] 1 0 0 ∧
    _onType ⟨['b'], 0, 0, 0⟩ = Effect.vcType ['b'] :=
  ⟨(onType_dispatch ⟨['a'], 1, 0, 0⟩).1 (by decide),
   (onType_dispatch ⟨['b'], 0, 0, 0⟩).2 (by decide)⟩

/-- C6: for every Enter keydown, regardless of modifier and selection state,
the handler pushes back into the surface (via the end-of-text sentinel) the
surface's text with a single line feed spliced in place of the surface
selection, and emits exactly one `TypeInput` with text `"\n"` and all counts
zero, which `_onType` dispatches as a plain insertion. -/
theorem enter_keydown_spec (env : KeydownEnv) (metaKey : Bool)
    (h : env.surface.text.length ≤ MAX_SAFE_INTEGER) :
    keydownHandler env ⟨KeyCodeE.Enter, metaKey⟩ =
      [Effect.surfaceUpdateText 0 MAX_SAFE_INTEGER
          (env.surface.text.take env.surface.selectionStart ++ ['\n'] ++
            env.surface.text.drop env.surface.selectionEnd),
       _onType ⟨['\n'], 0, 0, 0⟩, Effect.emitKeyDown]
    ∧ _onType ⟨['\n'], 0, 0, 0⟩ = Effect.vcType ['\n']
    ∧ jsUpdateText env.surface.text 0 MAX_SAFE_INTEGER
        (env.surface.text.take env.surface.selectionStart ++ ['\n'] ++
          env.surface.text.drop env.surface.selectionEnd) =
      env.surface.text.take env.surface.selectionStart ++ ['\n'] ++
        env.surface.text.drop env.surface.selectionEnd := by
  refine ⟨?_, by decide, ?_⟩
  · simp [keydownHandler, _emitAddNewLineEvent, jsSubstring, jsSubstringFrom]
  · have hmin : min MAX_SAFE_INTEGER env.surface.text.length =
        env.surface.text.length := Nat.min_eq_right h
    simp [jsUpdateText, hmin]

/-- Witness for `enter_keydown_spec`: Enter on a surface mirroring `"ab"` with
the caret between the two characters pushes back `"a\nb"` and emits the
newline `TypeInput`. -/
theorem enter_keydown_spec_witness :
    keydownHandler ⟨⟨['a', 'b'], 1, 1⟩, [], [], false, ⟨[], false, none, none⟩, false⟩
        ⟨KeyCodeE.Enter, false⟩ =
      [Effect.surfaceUpdateText 0 MAX_SAFE_INTEGER ['a', '\n', 'b'],
       _onType ⟨['\n'], 0, 0, 0⟩, Effect.emitKeyDown] := by
  have h := (enter_keydown_spec
    ⟨⟨['a', 'b'], 1, 1⟩, [], [], false, ⟨[], false, none, none⟩, false⟩ false
    (by decide)).1
  simpa using h

/-- C7: the debug registration module's keybindings are exactly the enumerated
literals — toggle-breakpoint on F9 gated on editor text focus and no binding
for the other three editor actions; Show Debug under the "View" category on
Ctrl/Cmd+Shift+D; start and continue on F5, step-over on F10, step-into on
F11, step-out on Shift+F11, stop on Shift+F5, console toggle on
Ctrl/Cmd+Shift+I, and no binding for restart, pause or
open-launch-configuration — and the repl (Debug Console) panel is the default
panel of the panel registry. -/
theorem debug_keybindings_exact :
    editorActionRegistrations.filterMap
        (fun r => r.kbOpts.map (fun k => (r.action, k))) =
      [(EditorActionClass.ToggleBreakpointAction,
        ⟨ContextKeyE.EditorTextFocus, ⟨false, false, KeyCodeE.F9⟩⟩)]
    ∧ workbenchActionRegistrations.filterMap
        (fun r => r.keybinding.map (fun k => (r.action, k))) =
      [(WorkbenchActionClass.OpenDebugViewletAction, ⟨true, true, KeyCodeE.KEY_D⟩),
       (WorkbenchActionClass.StartDebugAction, ⟨false, false, KeyCodeE.F5⟩),
       (WorkbenchActionClass.StepOverDebugAction, ⟨false, false, KeyCodeE.F10⟩),
       (WorkbenchActionClass.StepIntoDebugAction, ⟨false, false, KeyCodeE.F11⟩),
       (WorkbenchActionClass.StepOutDebugAction, ⟨false, true, KeyCodeE.F11⟩),
       (WorkbenchActionClass.StopDebugAction, ⟨false, true, KeyCodeE.F5⟩),
       (WorkbenchActionClass.ContinueAction, ⟨false, false, KeyCodeE.F5⟩),
       (WorkbenchActionClass.ToggleReplAction, ⟨true, true, KeyCodeE.KEY_I⟩)]
    ∧ (regOf WorkbenchActionClass.OpenDebugViewletAction).map
        WorkbenchActionRegistration.category = some "View"
    ∧ panelRegistryAfterLoad.defaultPanelId = some REPL_ID
    ∧ panelRegistryAfterLoad.panels.map PanelDescriptorE.id = [REPL_ID] := by decide

/-- C8 (amended): a `textupdate` or `textformatupdate` event arriving before
any `EditContextState` snapshot has been captured dispatches no edit intent
and no decoration change, and leaves the snapshot and decorations unchanged;
the composition range is also unchanged unless a composition is active, in
which case its end is still moved to the current cursor position (the original
claim that the whole observable state is unchanged is refuted by
`pre_baseline_textupdate_cex`). -/
theorem pre_baseline_events_noop (st : AdapterState) (cursor : VPos)
    (e : TextUpdateEvent) (model : TextModelE) (formats : List TextFormat)
    (h : st.currentEditContextState = none) :
    (textUpdateListener st cursor e).2 = none
    ∧ ((textUpdateListener st cursor e).1).currentEditContextState = none
    ∧ ((textUpdateListener st cursor e).1).decorations = st.decorations
    ∧ (st.compositionRange = none → (textUpdateListener st cursor e).1 = st)
    ∧ (∀ r, st.compositionRange = some r →
        ((textUpdateListener st cursor e).1).compositionRange =
          some (r.setEndPosition cursor))
    ∧ _handleTextFormatUpdate st model formats = st := by
  rcases hr : st.compositionRange with _ | r
  · refine ⟨?_, ?_, ?_, fun _ => ?_, fun r hr2 => ?_, ?_⟩ <;>
      simp_all [textUpdateListener, _emitTypeEvent, _handleTextFormatUpdate]
  · refine ⟨?_, ?_, ?_, fun hc => ?_, fun r2 hr2 => ?_, ?_⟩ <;>
      simp_all [textUpdateListener, _emitTypeEvent, _handleTextFormatUpdate]

/-- C8 counterexample: a `textupdate` that arrives before any snapshot while a
composition is active still mutates the adapter's composition range (its end
moves to the current cursor), so the adapter's observable state is not
unchanged. -/
theorem pre_baseline_textupdate_cex :
    (⟨none, some ⟨⟨1, 1⟩, ⟨1, 1⟩⟩, []⟩ : AdapterState).currentEditContextState = none
    ∧ (textUpdateListener ⟨none, some ⟨⟨1, 1⟩, ⟨1, 1⟩⟩, []⟩ ⟨1, 3⟩ ⟨['x'], 0, 0⟩).2 = none
    ∧ (textUpdateListener ⟨none, some ⟨⟨1, 1⟩, ⟨1, 1⟩⟩, []⟩ ⟨1, 3⟩ ⟨['x'], 0, 0⟩).1 ≠
        ⟨none, some ⟨⟨1, 1⟩, ⟨1, 1⟩⟩, []⟩ := by decide

/-- Witness for `pre_baseline_events_noop`: with no snapshot and no active
composition, a textupdate dispatches nothing and leaves the state exactly
unchanged, and a textformatupdate is a no-op. -/
theorem pre_baseline_events_noop_witness :
    (textUpdateListener ⟨none, none, []⟩ ⟨1, 1⟩ ⟨['x'], 0, 0⟩).2 = none
    ∧ (textUpdateListener ⟨none, none, []⟩ ⟨1, 1⟩ ⟨['x'], 0, 0⟩).1 = ⟨none, none, []⟩
    ∧ _handleTextFormatUpdate ⟨none, none, []⟩ ⟨fun _ => 0, fun _ => ⟨1, 1⟩⟩
        [⟨0, 1, ['S'], ['T']⟩] = ⟨none, none, []⟩ :=
  ⟨(pre_baseline_events_noop ⟨none, none, []⟩ ⟨1, 1⟩ ⟨['x'], 0, 0⟩
      ⟨fun _ => 0, fun _ => ⟨1, 1⟩⟩ [⟨0, 1, ['S'], ['T']⟩] rfl).1,
   (pre_baseline_events_noop ⟨none, none, []⟩ ⟨1, 1⟩ ⟨['x'], 0, 0⟩
      ⟨fun _ => 0, fun _ => ⟨1, 1⟩⟩ [⟨0, 1, ['S'], ['T']⟩] rfl).2.2.2.1 rfl,
   (pre_baseline_events_noop ⟨none, none, []⟩ ⟨1, 1⟩ ⟨['x'], 0, 0⟩
      ⟨fun _ => 0, fun _ => ⟨1, 1⟩⟩ [⟨0, 1, ['S'], ['T']⟩] rfl).2.2.2.2.2⟩

/-- C9: the focus-state setter is idempotent — a repeated call with the same
value issues no further notification, the two calls together notify the shared
view-model focus state at most once, gaining focus calls the DOM node's
native focus method exactly when the stored flag changes, and losing focus
never does. -/
theorem setHasFocus_idempotent (s v : Bool) :
    (_setHasFocus (_setHasFocus s v).1 v).2 = []
    ∧ (_setHasFocus (_setHasFocus s v).1 v).1 = (_setHasFocus s v).1
    ∧ ((_setHasFocus s v).2 ++ (_setHasFocus (_setHasFocus s v).1 v).2).countP
        (fun x => match x with
          | FocusEffect.setViewModelHasFocus _ => true
          | _ => false) ≤ 1
    ∧ (v = true → (FocusEffect.domNodeFocus ∈ (_setHasFocus s v).2 ↔ s ≠ v))
    ∧ (v = false → FocusEffect.domNodeFocus ∉ (_setHasFocus s v).2) := by
  cases s <;> cases v <;> decide

/-- Witness for `setHasFocus_idempotent`: gaining focus from the unfocused
state calls the DOM node's native focus method; losing focus from the focused
state does not. -/
theorem setHasFocus_idempotent_witness :
    (FocusEffect.domNodeFocus ∈ (_setHasFocus false true).2 ↔ (false : Bool) ≠ true)
    ∧ FocusEffect.domNodeFocus ∉ (_setHasFocus true false).2 :=
  ⟨(setHasFocus_idempotent false true).2.2.2.1 rfl,
   (setHasFocus_idempotent true false).2.2.2.2 rfl⟩

/-- A paste forwarded to the view controller. -/
def isPasteEffect : Effect → Bool := fun x =>
  match x with
  | Effect.vcPaste _ _ _ _ => true
  | _ => false

/-- A lookup in the clipboard metadata registry. -/
def isLookupEffect : Effect → Bool := fun x =>
  match x with
  | Effect.metadataLookup _ => true
  | _ => false

/-- C10: for an intercepted modifier+V keydown, an empty clipboard read
forwards no paste and performs no clipboard-metadata lookup (only the default
is prevented and the key down forwarded), and a paste is forwarded to the
view controller if and only if the clipboard text is non-empty. -/
theorem paste_keydown_empty_clipboard (env : KeydownEnv) :
    (env.clipboardText = [] →
      keydownHandler env ⟨KeyCodeE.KeyV, true⟩ = [Effect.preventDefault, Effect.emitKeyDown]
      ∧ (keydownHandler env ⟨KeyCodeE.KeyV, true⟩).countP isLookupEffect = 0)
    ∧ ((keydownHandler env ⟨KeyCodeE.KeyV, true⟩).any isPasteEffect ↔
        env.clipboardText ≠ []) := by
  have hk : keydownHandler env ⟨KeyCodeE.KeyV, true⟩ =
      pasteKeydownEffects env ++ [Effect.emitKeyDown] := by
    simp [keydownHandler]
  refine ⟨fun hempty => ⟨?_, ?_⟩, ?_⟩
  · rw [hk]
    simp [pasteKeydownEffects, hempty]
  · rw [hk]
    simp [pasteKeydownEffects, hempty, isLookupEffect]
  · rw [hk]
    rcases hct : env.clipboardText with _ | ⟨c, cs⟩
    · simp [pasteKeydownEffects, hct, isPasteEffect, isLookupEffect]
    · rcases hmd : registryGet env.registry (c :: cs) with _ | md <;>
        simp [pasteKeydownEffects, hct, hmd, isPasteEffect, isLookupEffect]

/-- Witness for `paste_keydown_empty_clipboard`: with an empty clipboard the
handler only prevents the default and forwards the key down — no paste, no
metadata lookup — and with a non-empty clipboard a paste is forwarded. -/
theorem paste_keydown_empty_clipboard_witness :
    (keydownHandler ⟨⟨[], 0, 0⟩, [], [], false, ⟨[], false, none, none⟩, false⟩
        ⟨KeyCodeE.KeyV, true⟩ = [Effect.preventDefault, Effect.emitKeyDown])
    ∧ ((keydownHandler ⟨⟨[], 0, 0⟩, ['p'], [], false, ⟨[], false, none, none⟩, false⟩
        ⟨KeyCodeE.KeyV, true⟩).any isPasteEffect ↔ (['p'] : List Char) ≠ []) :=
  ⟨((paste_keydown_empty_clipboard
      ⟨⟨[], 0, 0⟩, [], [], false, ⟨[], false, none, none⟩, false⟩).1 rfl).1,
   (paste_keydown_empty_clipboard
      ⟨⟨[], 0, 0⟩, ['p'], [], false, ⟨[], false, none, none⟩, false⟩).2⟩
